import Mathlib

/-!
Verification of the sqlparser-rs sources: dialect capability methods
(`src/dialect/mssql.rs`, `src/dialect/databricks.rs`), the keyword table
(`src/dialect/keywords.rs`), identifier rendering and the `CONVERT`
rendering arm (`src/ast/mod.rs`), and the `SET` statement grammar exercised
by `tests/sqlparser_postgres.rs`.

Rust characters are Lean `Char`s; `char::is_alphabetic` (a Unicode property
of the Rust standard library, not of this repository) is passed as an
explicit `Char → Bool` parameter wherever the source calls it, so every
result below holds for the actual Unicode classifier.
-/

namespace SqlParser

/-- The single-quote character, `'`. -/
def squote : Char := Char.ofNat 39

/-- The backtick character. -/
def btick : Char := Char.ofNat 96

namespace DatabricksDialect

/-- From `src/dialect/databricks.rs`: `('a'..='z').contains(&ch) || ('A'..='Z').contains(&ch)`. -/
def is_identifier_start (ch : Char) : Bool :=
  ('a' ≤ ch && ch ≤ 'z') || ('A' ≤ ch && ch ≤ 'Z')

/-- From `src/dialect/databricks.rs`: letters, digits, or underscore. -/
def is_identifier_part (ch : Char) : Bool :=
  ('a' ≤ ch && ch ≤ 'z')
    || ('A' ≤ ch && ch ≤ 'Z')
    || ('0' ≤ ch && ch ≤ '9')
    || ch == '_'

/-- From `src/dialect/databricks.rs`: `ch == '`'` (backtick only). -/
def is_delimited_identifier_start (ch : Char) : Bool :=
  ch == btick

end DatabricksDialect

/-- Modelled from the spec: the `DialectSettings` struct is declared in
`src/dialect/mod.rs`, which is not part of this source tree.  The spec
describes it as a struct of boolean toggles consulted by the parser
(`convert_type_before_value` for MSSQL's `CONVERT(type, value)` argument
order; `supports_connect_by`), each defaulting to off in the generic
dialect.  Only the fields named by `src/dialect/mssql.rs` are modelled;
`..Default::default()` fills the rest. -/
structure DialectSettings where
  convert_type_before_value : Bool := false
  supports_connect_by : Bool := false
deriving DecidableEq, Repr

namespace MsSqlDialect

/-- From `src/dialect/mssql.rs`: overrides `convert_type_before_value` and
`supports_connect_by`, leaving the remaining settings at their defaults. -/
def settings : DialectSettings :=
  { convert_type_before_value := true, supports_connect_by := true }

/-- From `src/dialect/mssql.rs`: `ch == '"' || ch == '['`. -/
def is_delimited_identifier_start (ch : Char) : Bool :=
  ch == '"' || ch == '['

/-- From `src/dialect/mssql.rs`: `ch.is_alphabetic() || ch == '_' || ch == '#' || ch == '@'`.
The Unicode classifier `char::is_alphabetic` is the parameter `alpha`. -/
def is_identifier_start (alpha : Char → Bool) (ch : Char) : Bool :=
  alpha ch || ch == '_' || ch == '#' || ch == '@'

/-- From `src/dialect/mssql.rs`: alphabetic, ASCII digit, or one of `@ $ # _`. -/
def is_identifier_part (alpha : Char → Bool) (ch : Char) : Bool :=
  alpha ch
    || ('0' ≤ ch && ch ≤ '9')
    || ch == '@'
    || ch == '$'
    || ch == '#'
    || ch == '_'

end MsSqlDialect

/-- `display_comma_separated` from `src/ast/mod.rs`, on already-rendered items. -/
def display_comma_separated (xs : List String) : String :=
  String.intercalate ", " xs

/-- The `Expr::Convert` arm of `impl fmt::Display for Expr` in `src/ast/mod.rs`,
with each sub-expression represented by its rendered text. -/
def convertDisplay (expr : String) (target_before_value : Bool)
    (data_type : Option String) (charset : Option String)
    (styles : List String) : String :=
  let core : String :=
    match data_type with
    | some dt =>
      match charset with
      | some cs => expr ++ ", " ++ dt ++ " CHARACTER SET " ++ cs
      | none =>
        if target_before_value then dt ++ ", " ++ expr
        else expr ++ ", " ++ dt
    | none =>
      match charset with
      | some cs => expr ++ " USING " ++ cs
      | none => expr
  "CONVERT(" ++ core
    ++ (if styles.isEmpty then "" else ", " ++ display_comma_separated styles)
    ++ ")"

/-- An identifier, from `src/ast/mod.rs`: character data plus optional quote style. -/
structure Ident where
  value : String
  quote_style : Option Char
deriving DecidableEq, Repr

/-- Modelled from the spec: `escape_quoted_string` lives in `src/ast/value.rs`,
which is not part of this source tree.  Per the spec's quoted-string escaping
rule (a doubled quote stands for one embedded quote character), rendering
writes each embedded occurrence of the quote character twice and every other
character unchanged. -/
def escape_quoted_string (s : String) (q : Char) : String :=
  String.mk (s.data.foldr (fun c acc => if c = q then q :: q :: acc else c :: acc) [])

namespace Ident

/-- `Ident::new` from `src/ast/mod.rs`: no quotes. -/
def new (value : String) : Ident := ⟨value, none⟩

/-- `Ident::with_quote` from `src/ast/mod.rs`.  The `assert!` that the quote is
one of `' " ` [` is modelled by returning `none` (a panic) when it fails. -/
def with_quote (quote : Char) (value : String) : Option Ident :=
  if quote = squote || quote = '"' || quote = btick || quote = '[' then
    some ⟨value, some quote⟩
  else none

/-- `impl fmt::Display for Ident` from `src/ast/mod.rs`; the
`panic!("unexpected quote style")` arm is modelled by `none`. -/
def display (i : Ident) : Option String :=
  match i.quote_style with
  | some q =>
    if q = '"' || q = squote || q = btick then
      some (String.singleton q ++ escape_quoted_string i.value q ++ String.singleton q)
    else if q = '[' then
      some ("[" ++ i.value ++ "]")
    else none
  | none => some i.value

end Ident

/-- The set of quote characters accepted by `Ident::with_quote` and handled by
`impl fmt::Display for Ident`: single quote, double quote, backtick, open
square bracket. -/
def validQuoteChar (q : Char) : Bool :=
  q = squote || q = '"' || q = btick || q = '['

/-- `ALL_KEYWORDS` from `src/dialect/keywords.rs`: the full static keyword
table, in the order the `define_keywords!` invocation lists it.  Every entry
is the name of its constant, except `END_EXEC`, whose text is `END-EXEC`. -/
def ALL_KEYWORDS : List String := [
  "ABS", "ACTION", "ADD", "ALL", "ALLOCATE", "ALTER",
  "AND", "ANY", "APPLY", "ARE", "ARRAY", "ARRAY_AGG",
  "ARRAY_MAX_CARDINALITY", "AS", "ASC", "ASENSITIVE", "ASYMMETRIC", "AT",
  "ATOMIC", "AUTHORIZATION", "AVG", "BEGIN", "BEGIN_FRAME", "BEGIN_PARTITION",
  "BETWEEN", "BIGINT", "BINARY", "BLOB", "BOOLEAN", "BOTH",
  "BY", "BYTEA", "CALL", "CALLED", "CARDINALITY", "CASCADE",
  "CASCADED", "CASE", "CAST", "CEIL", "CEILING", "CHAIN",
  "CHAR", "CHARACTER", "CHARACTER_LENGTH", "CHAR_LENGTH", "CHECK", "CLOB",
  "CLOSE", "COALESCE", "COLLATE", "COLLECT", "COLUMN", "COLUMNS",
  "COMMIT", "COMMITTED", "CONDITION", "CONNECT", "CONSTRAINT", "CONTAINS",
  "CONVERT", "COPY", "CORR", "CORRESPONDING", "COUNT", "COVAR_POP",
  "COVAR_SAMP", "CREATE", "CROSS", "CSV", "CUBE", "CUME_DIST",
  "CURRENT", "CURRENT_CATALOG", "CURRENT_DATE", "CURRENT_DEFAULT_TRANSFORM_GROUP", "CURRENT_PATH", "CURRENT_ROLE",
  "CURRENT_ROW", "CURRENT_SCHEMA", "CURRENT_TIME", "CURRENT_TIMESTAMP", "CURRENT_TRANSFORM_GROUP_FOR_TYPE", "CURRENT_USER",
  "CURSOR", "CYCLE", "DATE", "DAY", "DEALLOCATE", "DEC",
  "DECIMAL", "DECLARE", "DEFAULT", "DELETE", "DENSE_RANK", "DEREF",
  "DESC", "DESCRIBE", "DETERMINISTIC", "DISCONNECT", "DISTINCT", "DOUBLE",
  "DROP", "DYNAMIC", "EACH", "ELEMENT", "ELSE", "END",
  "END-EXEC", "END_FRAME", "END_PARTITION", "EQUALS", "ERROR", "ESCAPE",
  "EVERY", "EXCEPT", "EXEC", "EXECUTE", "EXISTS", "EXP",
  "EXTENDED", "EXTERNAL", "EXTRACT", "FALSE", "FETCH", "FIELDS",
  "FILTER", "FIRST", "FIRST_VALUE", "FLOAT", "FLOOR", "FOLLOWING",
  "FOR", "FOREIGN", "FRAME_ROW", "FREE", "FROM", "FULL",
  "FUNCTION", "FUSION", "GET", "GLOBAL", "GRANT", "GROUP",
  "GROUPING", "GROUPS", "HAVING", "HEADER", "HOLD", "HOUR",
  "IDENTITY", "IF", "IN", "INDEX", "INDICATOR", "INNER",
  "INOUT", "INSENSITIVE", "INSERT", "INT", "INTEGER", "INTERSECT",
  "INTERSECTION", "INTERVAL", "INTO", "IS", "ISOLATION", "JOIN",
  "KEY", "LAG", "LANGUAGE", "LARGE", "LAST", "LAST_VALUE",
  "LATERAL", "LEAD", "LEADING", "LEFT", "LEVEL", "LIKE",
  "LIKE_REGEX", "LIMIT", "LISTAGG", "LN", "LOCAL", "LOCALTIME",
  "LOCALTIMESTAMP", "LOCATION", "LOWER", "MATCH", "MATERIALIZED", "MAX",
  "MEMBER", "MERGE", "METHOD", "MIN", "MINUTE", "MOD",
  "MODIFIES", "MODULE", "MONTH", "MULTISET", "NATIONAL", "NATURAL",
  "NCHAR", "NCLOB", "NEW", "NEXT", "NO", "NONE",
  "NORMALIZE", "NOT", "NTH_VALUE", "NTILE", "NULL", "NULLIF",
  "NULLS", "NUMERIC", "OBJECT", "OCCURRENCES_REGEX", "OCTET_LENGTH", "OF",
  "OFFSET", "OLD", "ON", "ONLY", "OPEN", "OR",
  "ORDER", "OUT", "OUTER", "OVER", "OVERFLOW", "OVERLAPS",
  "OVERLAY", "PARAMETER", "PARQUET", "PARTITION", "PERCENT", "PERCENTILE_CONT",
  "PERCENTILE_DISC", "PERCENT_RANK", "PERIOD", "PORTION", "POSITION", "POSITION_REGEX",
  "POWER", "PRECEDES", "PRECEDING", "PRECISION", "PREPARE", "PRIMARY",
  "PROCEDURE", "RANGE", "RANK", "READ", "READS", "REAL",
  "RECURSIVE", "REF", "REFERENCES", "REFERENCING", "REGCLASS", "REGR_AVGX",
  "REGR_AVGY", "REGR_COUNT", "REGR_INTERCEPT", "REGR_R2", "REGR_SLOPE", "REGR_SXX",
  "REGR_SXY", "REGR_SYY", "RELEASE", "REPEATABLE", "RESTRICT", "RESULT",
  "RETURN", "RETURNS", "REVOKE", "RIGHT", "ROLLBACK", "ROLLUP",
  "ROW", "ROWS", "ROW_NUMBER", "SAVEPOINT", "SCHEMA", "SCOPE",
  "SCROLL", "SEARCH", "SECOND", "SELECT", "SENSITIVE", "SERIALIZABLE",
  "SESSION", "SESSION_USER", "SET", "SHOW", "SIMILAR", "SMALLINT",
  "SOME", "SPECIFIC", "SPECIFICTYPE", "SQL", "SQLEXCEPTION", "SQLSTATE",
  "SQLWARNING", "SQRT", "START", "STATIC", "STDDEV_POP", "STDDEV_SAMP",
  "STDIN", "STORED", "SUBMULTISET", "SUBSTRING", "SUBSTRING_REGEX", "SUCCEEDS",
  "SUM", "SYMMETRIC", "SYSTEM", "SYSTEM_TIME", "SYSTEM_USER", "TABLE",
  "TABLESAMPLE", "TEXT", "THEN", "TIES", "TIME", "TIMESTAMP",
  "TIMEZONE_HOUR", "TIMEZONE_MINUTE", "TO", "TOP", "TRAILING", "TRANSACTION",
  "TRANSLATE", "TRANSLATE_REGEX", "TRANSLATION", "TREAT", "TRIGGER", "TRIM",
  "TRIM_ARRAY", "TRUE", "TRUNCATE", "UESCAPE", "UNBOUNDED", "UNCOMMITTED",
  "UNION", "UNIQUE", "UNKNOWN", "UNNEST", "UPDATE", "UPPER",
  "USER", "USING", "UUID", "VALUE", "VALUES", "VALUE_OF",
  "VARBINARY", "VARCHAR", "VARYING", "VAR_POP", "VAR_SAMP", "VERSIONING",
  "VIEW", "WHEN", "WHENEVER", "WHERE", "WIDTH_BUCKET", "WINDOW",
  "WITH", "WITHIN", "WITHOUT", "WORK", "WRITE", "YEAR",
  "ZONE"]

/-- `RESERVED_FOR_TABLE_ALIAS` from `src/dialect/keywords.rs`: keywords that
cannot be used as a table alias. -/
def RESERVED_FOR_TABLE_ALIAS : List String := [
  "WITH", "SELECT", "WHERE", "GROUP", "HAVING", "ORDER", "TOP", "LIMIT",
  "OFFSET", "FETCH", "UNION", "EXCEPT", "INTERSECT",
  "ON", "JOIN", "INNER", "CROSS", "FULL", "LEFT", "RIGHT", "NATURAL", "USING",
  "OUTER"]

/-- `RESERVED_FOR_COLUMN_ALIAS` from `src/dialect/keywords.rs`: keywords that
cannot be used as a column alias. -/
def RESERVED_FOR_COLUMN_ALIAS : List String := [
  "WITH", "SELECT", "WHERE", "GROUP", "HAVING", "ORDER", "LIMIT", "OFFSET",
  "FETCH", "UNION", "EXCEPT", "INTERSECT",
  "FROM"]

/-- Strict lexicographic order on character lists by code point.  Every string
in the keyword table is ASCII, so on those strings this coincides with
byte-wise comparison of the UTF-8 encodings that Rust's `str` ordering uses. -/
def charListLt : List Char → List Char → Bool
  | [], [] => false
  | [], _ :: _ => true
  | _ :: _, [] => false
  | c :: cs, d :: ds => c.toNat < d.toNat || (c.toNat = d.toNat && charListLt cs ds)

/-- Byte-wise strict order on (ASCII) strings. -/
def strLt (a b : String) : Bool := charListLt a.data b.data

/-- Each element of the list is strictly below its successor. -/
def strictlySorted : List String → Bool
  | [] => true
  | [_] => true
  | a :: b :: rest => strLt a b && strictlySorted (b :: rest)

/-- Modelled from the spec: the tokenizer (`src/tokenizer.rs`) is not part of
this source tree.  For the `SET` statement grammar below only three token
shapes matter; per the spec, the tokenizer classifies runs of characters into
words and operator symbols, and the parser reports the end of input as `EOF`
in error messages. -/
inductive Token where
  | word (s : String)
  | eq
  | eof
deriving DecidableEq, Repr

/-- The text of a token as it appears in error messages. -/
def Token.display : Token → String
  | .word s => s
  | .eq => "="
  | .eof => "EOF"

/-- Split a character stream into space-separated words (accumulator holds the
current word, reversed). -/
def wordsAux : List Char → List Char → List String
  | [], [] => []
  | [], acc => [String.mk acc.reverse]
  | c :: cs, acc =>
    if c = ' ' then
      if acc = [] then wordsAux cs [] else String.mk acc.reverse :: wordsAux cs []
    else wordsAux cs (c :: acc)

/-- Modelled from the spec: tokenize by splitting on spaces, classifying `=`
as an operator token and every other word as a word token, and appending the
end-of-input marker. -/
def tokenizeSimple (s : String) : List Token :=
  ((wordsAux s.data []).map fun w => if w = "=" then Token.eq else Token.word w)
    ++ [Token.eof]

/-- `ParserError` from the spec's external interface: a syntactic failure
carrying a message, or the recursion-depth guard. -/
inductive ParserError where
  | parserError (msg : String)
  | recursionLimitExceeded
deriving DecidableEq, Repr

/-- A literal value, after `Value` in `tests/sqlparser_postgres.rs`:
single-quoted strings and numbers are all the `SET` tests use. -/
inductive Value where
  | singleQuotedString (s : String)
  | number (n : String)
deriving DecidableEq, Repr

/-- Rendering of `Value`: a single-quoted string regains its quotes, a number
is its original lexeme. -/
def Value.display : Value → String
  | .singleQuotedString s => String.singleton squote ++ s ++ String.singleton squote
  | .number n => n

/-- `SetVariableValue` as used by `tests/sqlparser_postgres.rs`: a bare
identifier or a literal. -/
inductive SetVariableValue where
  | ident (s : String)
  | literal (v : Value)
deriving DecidableEq, Repr

/-- Rendering of `SetVariableValue`. -/
def SetVariableValue.display : SetVariableValue → String
  | .ident s => s
  | .literal v => v.display

/-- The `SET` statement, after `Statement::SetVariable` in
`tests/sqlparser_postgres.rs`: a `LOCAL` flag, a `HIVEVAR` flag, the variable
name and the assigned values. -/
inductive Statement where
  | setVariable (local_flag : Bool) (hivevar : Bool) (variable_name : String)
      (value : List SetVariableValue)
deriving DecidableEq, Repr

/-- The `Statement::SetVariable` arm of `impl fmt::Display for Statement` in
`src/ast/mod.rs`, at a single unparenthesized variable: `SET `, then `LOCAL `
if local, then `HIVEVAR:` if hivevar, then the name, ` = `, and the
comma-separated values. -/
def Statement.display : Statement → String
  | .setVariable lf hv v vals =>
    "SET " ++ (if lf then "LOCAL " else "")
      ++ (if hv then "HIVEVAR:" else "") ++ v ++ " = "
      ++ display_comma_separated (vals.map SetVariableValue.display)

/-- Render a list of statements. -/
def displayStatements (sts : List Statement) : String :=
  String.intercalate "; " (sts.map Statement.display)

/-- `parser_err!`: every syntactic failure is built here, naming what was
valid and the offending token, in the form `Expected <X>, found: <token>`. -/
def expectedErr (what : String) (found : Token) : Except ParserError (List Statement) :=
  Except.error (ParserError.parserError
    ("Expected " ++ what ++ ", found: " ++ found.display))

/-- A word consisting only of ASCII digits (a number literal). -/
def isNumberWord (w : String) : Bool :=
  !w.isEmpty && w.data.all fun c => '0' ≤ c && c ≤ '9'

/-- A word carrying its single quotes (a string literal). -/
def isQuotedWord (w : String) : Bool :=
  2 ≤ w.data.length && w.data.head? = some squote && w.data.getLast? = some squote

/-- The text between the quotes of a quoted word. -/
def innerQuoted (w : String) : String :=
  String.mk ((w.data.drop 1).dropLast)

/-- Modelled from the spec and the `parse_set` test: a variable value is a
string literal, a number, or a bare identifier (`DEFAULT` stays an
identifier). -/
def classifyValue (w : String) : SetVariableValue :=
  if isQuotedWord w then .literal (.singleQuotedString (innerQuoted w))
  else if isNumberWord w then .literal (.number w)
  else .ident w

/-- After a full statement, only the end of input may remain. -/
def expectEnd (st : Statement) : List Token → Except ParserError (List Statement)
  | [] => Except.ok [st]
  | [Token.eof] => Except.ok [st]
  | t :: _ => expectedErr "end of statement" t

/-- After `SET <name> =` (or `TO`), a variable value must follow. -/
def parseSetValue (lf : Bool) (v : String) :
    List Token → Except ParserError (List Statement)
  | Token.word w :: rest =>
    expectEnd (Statement.setVariable lf false v [classifyValue w]) rest
  | t :: _ => expectedErr "variable value" t
  | [] => expectedErr "variable value" Token.eof

/-- After `SET <name>`, an equals sign or `TO` must follow. -/
def parseSetAssign (lf : Bool) (v : String) :
    List Token → Except ParserError (List Statement)
  | Token.eq :: rest => parseSetValue lf v rest
  | Token.word w :: rest =>
    if w = "TO" then parseSetValue lf v rest
    else expectedErr "equals sign or TO" (Token.word w)
  | t :: _ => expectedErr "equals sign or TO" t
  | [] => expectedErr "equals sign or TO" Token.eof

/-- After `SET` and its optional modifier, the variable name must follow. -/
def parseSetVariableName (lf : Bool) :
    List Token → Except ParserError (List Statement)
  | Token.word v :: rest => parseSetAssign lf v rest
  | t :: _ => expectedErr "identifier" t
  | [] => expectedErr "identifier" Token.eof

/-- Modelled from the spec and the `parse_set` test: `SET` takes an optional
`LOCAL` or `SESSION` modifier (`SESSION` is consumed and dropped, as
`one_statement_parses_to("SET SESSION a = b", "SET a = b")` shows), then a
variable name, `=` or `TO`, and a value. -/
def parseSet : List Token → Except ParserError (List Statement)
  | Token.word w :: rest =>
    if w = "LOCAL" then parseSetVariableName true rest
    else if w = "SESSION" then parseSetVariableName false rest
    else parseSetVariableName false (Token.word w :: rest)
  | ts => parseSetVariableName false ts

/-- Modelled from the spec: statement dispatch peeks the first keyword; the
fragment modelled here covers the `SET` statements the tests exercise, and an
empty input parses to no statements. -/
def parseStatements : List Token → Except ParserError (List Statement)
  | [] => Except.ok []
  | [Token.eof] => Except.ok []
  | Token.word w :: rest =>
    if w = "SET" then parseSet rest
    else expectedErr "an SQL statement" (Token.word w)
  | t :: _ => expectedErr "an SQL statement" t

/-- Modelled from the spec: `parse_sql_statements` tokenizes, then parses. -/
def parse_sql_statements (s : String) : Except ParserError (List Statement) :=
  parseStatements (tokenizeSimple s)

/-- A parse result is total: either a statement list, or a
`ParserError::ParserError` whose message names what was valid and the
offending token. -/
def GoodResult (r : Except ParserError (List Statement)) : Prop :=
  (∃ sts, r = Except.ok sts)
    ∨ ∃ x t, r = Except.error (ParserError.parserError
        ("Expected " ++ x ++ ", found: " ++ t))

end SqlParser

namespace SqlParser

/-- The value of `pub struct MsSqlDialect;`: a struct with no fields, so its
state is the empty record. -/
structure MsSqlDialectData where
deriving DecidableEq, Repr

/-- The value of `pub struct DatabricksDialect {}`: likewise fieldless. -/
structure DatabricksDialectData where
deriving DecidableEq, Repr

/-- One invocation of a `Dialect` capability method implemented in the source. -/
inductive DialectCall where
  | idStart (c : Char)
  | idPart (c : Char)
  | delimStart (c : Char)
  | settingsCall
deriving DecidableEq, Repr

/-- The result of one capability-method call. -/
inductive DialectResult where
  | b (x : Bool)
  | s (st : DialectSettings)
deriving DecidableEq, Repr

/-- The result `MsSqlDialect` produces for one call, as a function of that call
alone. -/
def msSqlResult (alpha : Char → Bool) : DialectCall → DialectResult
  | .idStart c => .b (MsSqlDialect.is_identifier_start alpha c)
  | .idPart c => .b (MsSqlDialect.is_identifier_part alpha c)
  | .delimStart c => .b (MsSqlDialect.is_delimited_identifier_start c)
  | .settingsCall => .s MsSqlDialect.settings

/-- The result `DatabricksDialect` produces for one call.  It overrides no
settings, so `settingsCall` yields the spec-modelled defaults. -/
def databricksResult : DialectCall → DialectResult
  | .idStart c => .b (DatabricksDialect.is_identifier_start c)
  | .idPart c => .b (DatabricksDialect.is_identifier_part c)
  | .delimStart c => .b (DatabricksDialect.is_delimited_identifier_start c)
  | .settingsCall => .s {}

/-- One method call on an `MsSqlDialect` value through `&self`: the shared
borrow hands the receiver back unchanged next to the result. -/
def msSqlStep (alpha : Char → Bool) (d : MsSqlDialectData) (c : DialectCall) :
    MsSqlDialectData × DialectResult :=
  (d, msSqlResult alpha c)

/-- One method call on a `DatabricksDialect` value through `&self`. -/
def databricksStep (d : DatabricksDialectData) (c : DialectCall) :
    DatabricksDialectData × DialectResult :=
  (d, databricksResult c)

/-- Run a sequence of method calls against one `MsSqlDialect` value, threading
the receiver through every call and collecting the results. -/
def runMsSql (alpha : Char → Bool) (d : MsSqlDialectData) :
    List DialectCall → MsSqlDialectData × List DialectResult
  | [] => (d, [])
  | c :: cs =>
    let step := msSqlStep alpha d c
    let rest := runMsSql alpha step.1 cs
    (rest.1, step.2 :: rest.2)

/-- Run a sequence of method calls against one `DatabricksDialect` value. -/
def runDatabricks (d : DatabricksDialectData) :
    List DialectCall → DatabricksDialectData × List DialectResult
  | [] => (d, [])
  | c :: cs =>
    let step := databricksStep d c
    let rest := runDatabricks step.1 cs
    (rest.1, step.2 :: rest.2)

end SqlParser

namespace SqlParser

/-- Claim C2 as stated is false: `DatabricksDialect::is_delimited_identifier_start`
recognizes only the backtick, so the double quote does not open a delimited
identifier under the Databricks dialect. -/
theorem databricks_doublequote_not_delimiter :
    DatabricksDialect.is_delimited_identifier_start '"' = false := by
  decide

/-- Claim C2 (amended): `MsSqlDialect::is_delimited_identifier_start` accepts the
double quote (and the opening bracket), while `DatabricksDialect` accepts
exactly the backtick, so the double quote opens a delimited identifier under
MsSql but not under Databricks. -/
theorem delimited_identifier_start_chars :
    MsSqlDialect.is_delimited_identifier_start '"' = true
    ∧ MsSqlDialect.is_delimited_identifier_start '[' = true
    ∧ ∀ c : Char, DatabricksDialect.is_delimited_identifier_start c = (c == btick) := by
  refine ⟨by decide, by decide, fun c => rfl⟩

/-- Claim C8: for both concrete dialects, every identifier-start character is
also an identifier-part character, for any Unicode alphabetic classifier. -/
theorem identifier_start_subset_part (alpha : Char → Bool) (c : Char) :
    (MsSqlDialect.is_identifier_start alpha c = true →
      MsSqlDialect.is_identifier_part alpha c = true)
    ∧ (DatabricksDialect.is_identifier_start c = true →
      DatabricksDialect.is_identifier_part c = true) := by
  constructor
  · intro h
    simp only [MsSqlDialect.is_identifier_start, Bool.or_eq_true, beq_iff_eq] at h
    simp only [MsSqlDialect.is_identifier_part, Bool.or_eq_true, beq_iff_eq]
    tauto
  · intro h
    simp only [DatabricksDialect.is_identifier_start, Bool.or_eq_true] at h
    simp only [DatabricksDialect.is_identifier_part, Bool.or_eq_true]
    tauto

/-- Concrete instance of `identifier_start_subset_part`: the underscore starts
an MsSql identifier and `a` starts a Databricks identifier, so both are
identifier parts. -/
theorem identifier_start_subset_part_witness :
    MsSqlDialect.is_identifier_part (fun _ => false) '_' = true
    ∧ DatabricksDialect.is_identifier_part 'a' = true :=
  ⟨(identifier_start_subset_part (fun _ => false) '_').1 (by decide),
   (identifier_start_subset_part (fun _ => false) 'a').2 (by decide)⟩

/-- Claim C1: `MsSqlDialect::settings` turns on `convert_type_before_value` and
`supports_connect_by`, and for a `Convert` with a data type and no charset the
rendered text places the type before the value exactly when
`target_before_value` is true. -/
theorem mssql_convert_type_before_value :
    MsSqlDialect.settings.convert_type_before_value = true
    ∧ MsSqlDialect.settings.supports_connect_by = true
    ∧ ∀ (e dt : String) (styles : List String) (tbv : Bool),
        convertDisplay e tbv (some dt) none styles =
          "CONVERT("
            ++ (if tbv then dt ++ ", " ++ e else e ++ ", " ++ dt)
            ++ (if styles.isEmpty then "" else ", " ++ display_comma_separated styles)
            ++ ")" := by
  refine ⟨rfl, rfl, fun e dt styles tbv => ?_⟩
  cases tbv <;> rfl

/-- Claim C4: an identifier whose quote style is the double quote renders as its
value, with embedded quotes doubled, enclosed in double quotes; in particular
`Ident { value: "a b", quote_style: Some('"') }` renders as `"a b"` with the
quotes included. -/
theorem ident_display_double_quoted :
    (∀ v : String, Ident.display ⟨v, some '"'⟩
      = some ("\"" ++ escape_quoted_string v '"' ++ "\""))
    ∧ Ident.display ⟨"a b", some '"'⟩ = some "\"a b\"" := by
  constructor
  · intro v
    rfl
  · rfl

/-- Claim C9: `Ident::with_quote` panics exactly when the quote is not one of
single quote, double quote, backtick, open bracket; and rendering an `Ident`
panics exactly when its quote style is `Some` of a character outside that set
(`None` and the four valid quote characters always render). -/
theorem ident_quote_panic_conditions :
    (∀ (q : Char) (v : String), (Ident.with_quote q v).isSome = validQuoteChar q)
    ∧ ∀ (v : String) (qs : Option Char),
        (Ident.display ⟨v, qs⟩).isSome = qs.elim true validQuoteChar := by
  constructor
  · intro q v
    by_cases h : (q = squote || q = '"' || q = btick || q = '[') = true
    · rw [Ident.with_quote, if_pos h]
      simp [validQuoteChar, h]
    · rw [Ident.with_quote, if_neg h]
      simp only [Bool.not_eq_true] at h
      simp [validQuoteChar, h, Option.isSome]
  · intro v qs
    cases qs with
    | none => rfl
    | some q =>
      simp only [Ident.display]
      split
      next h1 =>
        have h1' : (q = '"' ∨ q = squote) ∨ q = btick := by simpa using h1
        have hv : validQuoteChar q = true := by
          rcases h1' with (h | h) | h <;> subst h <;> decide
        simp [hv]
      next h1 =>
        split
        next h2 =>
          have hv : validQuoteChar q = true := by subst h2; decide
          simp [hv]
        next h2 =>
          have h1' : ¬q = '"' ∧ ¬q = squote ∧ ¬q = btick := by
            have := h1
            simp only [Bool.or_eq_true, decide_eq_true_eq, not_or] at this
            tauto
          have hv : validQuoteChar q = false := by
            simp [validQuoteChar, h1'.1, h1'.2.1, h1'.2.2, h2]
          simp [hv]

theorem strictlySorted_chain' :
    ∀ l : List String, strictlySorted l = true →
      List.Chain' (fun a b => strLt a b = true) l
  | [], _ => List.chain'_nil
  | [_], _ => List.chain'_singleton _
  | a :: b :: rest, h => by
    rw [strictlySorted, Bool.and_eq_true] at h
    exact List.chain'_cons.mpr ⟨h.1, strictlySorted_chain' (b :: rest) h.2⟩

set_option maxRecDepth 4000 in
/-- Claim C3: the static keyword table `ALL_KEYWORDS` is strictly increasing in
byte-wise string order — every element is strictly below its successor — so
binary search over the array is well-defined. -/
theorem all_keywords_strictly_sorted :
    List.Chain' (fun a b => strLt a b = true) ALL_KEYWORDS :=
  strictlySorted_chain' ALL_KEYWORDS (by decide)

/-- Claim C10: every keyword reserved for table-alias or column-alias
disambiguation is an element of `ALL_KEYWORDS`. -/
theorem reserved_alias_lists_subset_keywords :
    (RESERVED_FOR_TABLE_ALIAS.all fun s => ALL_KEYWORDS.contains s) = true
    ∧ (RESERVED_FOR_COLUMN_ALIAS.all fun s => ALL_KEYWORDS.contains s) = true := by
  constructor <;> decide

/-- Claim C7: every capability method of the two concrete dialects is a pure
function of its arguments.  Running any sequence of method calls against a
dialect value returns that value unchanged, and each call's result is a
function of that call alone — independent of the receiver and of every other
call in the sequence. -/
theorem dialect_methods_pure (alpha : Char → Bool) (dm : MsSqlDialectData)
    (db : DatabricksDialectData) (calls : List DialectCall) :
    runMsSql alpha dm calls = (dm, calls.map (msSqlResult alpha))
    ∧ runDatabricks db calls = (db, calls.map databricksResult) := by
  constructor
  · induction calls with
    | nil => rfl
    | cons c cs ih =>
      simp [runMsSql, msSqlStep, ih]
  · induction calls with
    | nil => rfl
    | cons c cs ih =>
      simp [runDatabricks, databricksStep, ih]

theorem expectEnd_good (st : Statement) (ts : List Token) :
    GoodResult (expectEnd st ts) := by
  unfold expectEnd
  split
  · exact Or.inl ⟨[st], rfl⟩
  · exact Or.inl ⟨[st], rfl⟩
  · exact Or.inr ⟨_, _, rfl⟩

theorem parseSetValue_good (lf : Bool) (v : String) (ts : List Token) :
    GoodResult (parseSetValue lf v ts) := by
  unfold parseSetValue
  split
  · exact expectEnd_good _ _
  · exact Or.inr ⟨_, _, rfl⟩
  · exact Or.inr ⟨_, _, rfl⟩

theorem parseSetAssign_good (lf : Bool) (v : String) (ts : List Token) :
    GoodResult (parseSetAssign lf v ts) := by
  unfold parseSetAssign
  split
  · exact parseSetValue_good _ _ _
  · split
    · exact parseSetValue_good _ _ _
    · exact Or.inr ⟨_, _, rfl⟩
  · exact Or.inr ⟨_, _, rfl⟩
  · exact Or.inr ⟨_, _, rfl⟩

theorem parseSetVariableName_good (lf : Bool) (ts : List Token) :
    GoodResult (parseSetVariableName lf ts) := by
  unfold parseSetVariableName
  split
  · exact parseSetAssign_good _ _ _
  · exact Or.inr ⟨_, _, rfl⟩
  · exact Or.inr ⟨_, _, rfl⟩

theorem parseSet_good (ts : List Token) : GoodResult (parseSet ts) := by
  unfold parseSet
  split
  · split
    · exact parseSetVariableName_good _ _
    · split
      · exact parseSetVariableName_good _ _
      · exact parseSetVariableName_good _ _
  · exact parseSetVariableName_good _ _

theorem parseStatements_good (ts : List Token) :
    GoodResult (parseStatements ts) := by
  unfold parseStatements
  split
  · exact Or.inl ⟨[], rfl⟩
  · exact Or.inl ⟨[], rfl⟩
  · split
    · exact parseSet_good _
    · exact Or.inr ⟨_, _, rfl⟩
  · exact Or.inr ⟨_, _, rfl⟩

/-- Claim C5: a parse call returns statements or an error, never a partial
result; every syntactic failure is a `ParserError::ParserError` whose message
has the form `Expected <X>, found: <token>`; and parsing `SET` returns
exactly `Expected identifier, found: EOF`. -/
theorem parse_errors_expected_form :
    (∀ s : String, GoodResult (parse_sql_statements s))
    ∧ parse_sql_statements "SET"
        = Except.error (ParserError.parserError "Expected identifier, found: EOF") :=
  ⟨fun s => parseStatements_good (tokenizeSimple s), rfl⟩

/-- Claim C6 as stated is false: `SET SESSION LOCAL = b` parses successfully,
but rendering the resulting statement gives `SET LOCAL = b`, whose re-parse
fails — `LOCAL` is consumed as the statement modifier and the equals sign is
then rejected as a variable name. -/
theorem roundtrip_fails_on_noncanonical_input :
    parse_sql_statements "SET SESSION LOCAL = b"
      = Except.ok [Statement.setVariable false false "LOCAL" [SetVariableValue.ident "b"]]
    ∧ parse_sql_statements (displayStatements
        [Statement.setVariable false false "LOCAL" [SetVariableValue.ident "b"]])
      = Except.error (ParserError.parserError "Expected identifier, found: =") :=
  ⟨rfl, rfl⟩

/-- Claim C6 (amended, per the round-trip property's restriction to canonical
reformatted text): for statements parsed from text that rendering reproduces
exactly, re-parsing the rendered text yields the same statements. -/
theorem roundtrip_on_canonical_text (T : String) (S : List Statement)
    (h1 : parse_sql_statements T = Except.ok S)
    (h2 : displayStatements S = T) :
    parse_sql_statements (displayStatements S) = Except.ok S := by
  rw [h2]
  exact h1

/-- Instance of `roundtrip_on_canonical_text` at the canonical text
`SET a = b`. -/
theorem roundtrip_on_canonical_text_witness :
    parse_sql_statements (displayStatements
      [Statement.setVariable false false "a" [SetVariableValue.ident "b"]])
      = Except.ok [Statement.setVariable false false "a" [SetVariableValue.ident "b"]] :=
  roundtrip_on_canonical_text "SET a = b"
    [Statement.setVariable false false "a" [SetVariableValue.ident "b"]] rfl rfl

end SqlParser
